import Mathlib

/-!
# Verification of the distributed-lock python client

Shallow embedding of the `distributed_lock` client library
(`distributed_lock/sync.py`, `distributed_lock/common.py`) and proofs about
its retry engine, lock-record codec, transport-adapter classification,
scoped acquire/release helper and environment-driven configuration.

Conventions:
* Python `float` seconds are modelled as `ℚ` (the claims only involve
  comparisons and exact arithmetic on them).
* Python `str` is modelled as `List Char`.
* Exceptions are modelled as values of explicit error types; `raise` is
  modelled by returning the corresponding error value.
-/

namespace DistributedLock

/-- Python `int()` applied to a float/rational: truncation toward zero. -/
def truncTowardZero (q : ℚ) : ℤ :=
  if 0 ≤ q then ⌊q⌋ else ⌈q⌉

/-! ## Retry engine (`with_retry` in `sync.py`)

`with_retry(server_side_wait=...)` wraps one fallible attempt in a loop.
We embed the loop as a fuelled recursive function over an abstract attempt
behaviour: `attempt n forced` gives the outcome and the wall-clock duration
of the `n`-th call of the wrapped function when invoked with
`_forced_server_side_wait = forced`.  Sleeping `sleep_after_failure`
advances the clock by exactly that amount (monotone clock model). -/

/-- Configuration picked up by the `with_retry` wrapper: the `wait`,
`automatic_retry` and `sleep_after_failure` kwargs, the decorator's
`server_side_wait` flag, and the client's `server_side_wait` ceiling. -/
structure RetryCfg where
  wait : ℚ
  automaticRetry : Bool
  sleepAfterFailure : ℚ
  serverSideWaitFlag : Bool
  serverSideWait : ℚ
deriving DecidableEq

/-- Outcome of a single call of the wrapped function: it returns, raises a
`DistributedLockError` (hard error) or raises a `DistributedLockException`
(contention).  Failures carry a tag identifying the concrete failure. -/
inductive AttemptOutcome (α : Type) where
  | success : α → AttemptOutcome α
  | hardError : ℕ → AttemptOutcome α
  | contention : ℕ → AttemptOutcome α
deriving DecidableEq

/-- An exception surfaced by the retry loop, hard error or contention. -/
inductive Raised where
  | hard : ℕ → Raised
  | cont : ℕ → Raised
deriving DecidableEq

/-- The failure raised by an attempt outcome, if any. -/
def AttemptOutcome.failure {α : Type} : AttemptOutcome α → Option Raised
  | .success _ => none
  | .hardError t => some (.hard t)
  | .contention t => some (.cont t)

/-- Result of running the retry loop (with `diverged` marking fuel
exhaustion of the embedding, i.e. the loop still running). -/
inductive RetryResult (α : Type) where
  | ok : α → RetryResult α
  | raised : Raised → RetryResult α
  | diverged : RetryResult α
deriving DecidableEq

/-- Observable trace of a retry-loop run: its result, the
`_forced_server_side_wait` value passed to each attempt (in order), and
the number of `time.sleep` calls performed. -/
structure RunOut (α : Type) where
  result : RetryResult α
  forcedLog : List (Option ℚ)
  sleeps : ℕ
deriving DecidableEq

/-- The body of the `while True` loop of `with_retry` in `sync.py`:

```
while True:
    try:
        if _forced_server_side_wait is not None:
            kwargs["_forced_server_side_wait"] = _forced_server_side_wait
        return func(self, *args, **kwargs)
    except DistributedLockError as e:
        if not automatic_retry:
            raise
        catched_exception = e
    except DistributedLockException as e:
        catched_exception = e
    elapsed = (datetime.datetime.utcnow() - before).total_seconds()
    if elapsed > wait - sleep_after_failure:
        raise catched_exception
    time.sleep(sleep_after_failure)
    if server_side_wait:
        if elapsed + sleep_after_failure + self.server_side_wait > wait:
            _forced_server_side_wait = max(
                int(wait - elapsed - sleep_after_failure), 1
            )
```

`fuel` bounds the number of iterations of the embedding, `n` is the
iteration index, `elapsedBefore` the clock value when the iteration
starts and `forced` the current `_forced_server_side_wait`. -/
def withRetryGo {α : Type} (cfg : RetryCfg)
    (attempt : ℕ → Option ℚ → AttemptOutcome α × ℚ) :
    ℕ → ℕ → ℚ → Option ℚ → RunOut α
  | 0, _, _, _ => ⟨.diverged, [], 0⟩
  | fuel + 1, n, elapsedBefore, forced =>
    let elapsed := elapsedBefore + (attempt n forced).2
    let keepRetrying : Raised → RunOut α := fun r =>
      if elapsed > cfg.wait - cfg.sleepAfterFailure then
        ⟨.raised r, [forced], 0⟩
      else
        let forced2 : Option ℚ :=
          if cfg.serverSideWaitFlag
              ∧ elapsed + cfg.sleepAfterFailure + cfg.serverSideWait > cfg.wait then
            some ((max (truncTowardZero (cfg.wait - elapsed - cfg.sleepAfterFailure)) 1 : ℤ) : ℚ)
          else forced
        let rest := withRetryGo cfg attempt fuel (n + 1)
          (elapsed + cfg.sleepAfterFailure) forced2
        ⟨rest.result, forced :: rest.forcedLog, rest.sleeps + 1⟩
    match (attempt n forced).1 with
    | .success a => ⟨.ok a, [forced], 0⟩
    | .hardError t =>
      if cfg.automaticRetry then keepRetrying (.hard t)
      else ⟨.raised (.hard t), [forced], 0⟩
    | .contention t => keepRetrying (.cont t)

/-- Running the retry loop from the start (`before = utcnow()`, no forced
server-side wait yet). -/
def withRetry {α : Type} (cfg : RetryCfg)
    (attempt : ℕ → Option ℚ → AttemptOutcome α × ℚ) (fuel : ℕ) : RunOut α :=
  withRetryGo cfg attempt fuel 0 0 none

/-- Python `x or y` on an optional float (`None` and `0` are falsy). -/
def pyOrElse (a : Option ℚ) (b : ℚ) : ℚ :=
  match a with
  | none => b
  | some x => if x = 0 then b else x

/-- The `wait` entry of the request body built by
`DistributedLockClient._acquire`:
`min(server_side_wait or self.server_side_wait, self.server_side_wait)`,
where the first argument is the `_forced_server_side_wait` handed over by
the retry loop (or `None`). -/
def acquireBodyWait (forcedServerSideWait : Option ℚ) (serverSideWait : ℚ) : ℚ :=
  min (pyOrElse forcedServerSideWait serverSideWait) serverSideWait

/-! ## Lock record codec (`AcquiredRessource` in `common.py`)

Python `str` values are modelled as `List Char`.  `datetime.datetime` is
modelled by its components plus an optional UTC offset in microseconds
(`none` = naive datetime). -/

/-- A Python string, modelled as its list of characters. -/
abbrev PyStr := List Char

/-- A `datetime.datetime` value: components plus an optional timezone
offset in microseconds (`none` models a naive datetime). -/
structure PyDatetime where
  year : ℕ
  month : ℕ
  day : ℕ
  hour : ℕ
  minute : ℕ
  second : ℕ
  microsecond : ℕ
  utcOffsetMicros : Option ℤ
deriving DecidableEq

/-- The decimal digit character for `n` (`'0'`–`'9'` when `n < 10`). -/
def digitChar (n : ℕ) : Char := Char.ofNat (48 + n)

/-- `n` zero-padded to 2 decimal digits (`"%02d"`, exact for `n < 100`). -/
def pad2 (n : ℕ) : List Char := [digitChar (n / 10), digitChar (n % 10)]

/-- `n` zero-padded to 4 decimal digits (`"%04d"`, exact for `n < 10000`). -/
def pad4 (n : ℕ) : List Char :=
  [digitChar (n / 1000), digitChar (n / 100 % 10), digitChar (n / 10 % 10), digitChar (n % 10)]

/-- `n` zero-padded to 6 decimal digits (`"%06d"`, exact for `n < 10^6`). -/
def pad6 (n : ℕ) : List Char := pad2 (n / 10000) ++ pad2 (n / 100 % 100) ++ pad2 (n % 100)

/-- The `±HH:MM[:SS[.ffffff]]` suffix `datetime.isoformat()` appends for an
aware datetime (empty for a naive one). -/
def offsetChars : Option ℤ → List Char
  | none => []
  | some off =>
    let sign : Char := if off < 0 then '-' else '+'
    let a : ℕ := off.natAbs
    let micro := a % 1000000
    let totalSec := a / 1000000
    sign :: pad2 (totalSec / 3600) ++ ':' :: pad2 (totalSec % 3600 / 60)
      ++ (if totalSec % 60 = 0 ∧ micro = 0 then [] else ':' :: pad2 (totalSec % 60))
      ++ (if micro = 0 then [] else '.' :: pad6 micro)

/-- The first 19 characters of `datetime.isoformat()`:
`YYYY-MM-DDTHH:MM:SS` (the `isoformat()[0:19]` slice taken by
`to_dict`). -/
def isoCore (t : PyDatetime) : List Char :=
  pad4 t.year ++ '-' :: pad2 t.month ++ '-' :: pad2 t.day
    ++ 'T' :: pad2 t.hour ++ ':' :: pad2 t.minute ++ ':' :: pad2 t.second

/-- `datetime.isoformat()`: `YYYY-MM-DDTHH:MM:SS[.ffffff][±HH:MM...]`. -/
def PyDatetime.isoformat (t : PyDatetime) : List Char :=
  isoCore t
    ++ (if t.microsecond = 0 then [] else '.' :: pad6 t.microsecond)
    ++ offsetChars t.utcOffsetMicros

/-- `s.replace("Z", "+00:00")` for a one-character pattern. -/
def replaceZ : List Char → List Char
  | [] => []
  | c :: rest =>
    if c = 'Z' then '+' :: '0' :: '0' :: ':' :: '0' :: '0' :: replaceZ rest
    else c :: replaceZ rest

/-- Numeric value of a decimal digit character. -/
def charVal (c : Char) : ℕ := c.toNat - 48

/-- Parse exactly two decimal digits (`int` of a 2-character slice,
restricted to plain digit strings, the only form this codec emits). -/
def parse2 (a b : Char) : Option ℕ :=
  if a.isDigit ∧ b.isDigit then some (10 * charVal a + charVal b) else none

/-- Parse exactly three decimal digits. -/
def parse3 (a b c : Char) : Option ℕ :=
  if a.isDigit ∧ b.isDigit ∧ c.isDigit then
    some (100 * charVal a + 10 * charVal b + charVal c)
  else none

/-- Parse exactly four decimal digits. -/
def parse4 (a b c d : Char) : Option ℕ :=
  if a.isDigit ∧ b.isDigit ∧ c.isDigit ∧ d.isDigit then
    some (1000 * charVal a + 100 * charVal b + 10 * charVal c + charVal d)
  else none

/-- CPython's `_parse_hh_mm_ss_ff`: a time string of one of the shapes
`HH`, `HH:MM`, `HH:MM:SS`, `HH:MM:SS.fff`, `HH:MM:SS.ffffff`, yielding
`(hour, minute, second, microsecond)`. -/
def parseHMSF : List Char → Option (ℕ × ℕ × ℕ × ℕ)
  | [h1, h2] => (parse2 h1 h2).map fun h => (h, 0, 0, 0)
  | [h1, h2, c1, m1, m2] =>
    if c1 = ':' then
      (parse2 h1 h2).bind fun h => (parse2 m1 m2).map fun m => (h, m, 0, 0)
    else none
  | [h1, h2, c1, m1, m2, c2, s1, s2] =>
    if c1 = ':' ∧ c2 = ':' then
      (parse2 h1 h2).bind fun h => (parse2 m1 m2).bind fun m =>
        (parse2 s1 s2).map fun s => (h, m, s, 0)
    else none
  | [h1, h2, c1, m1, m2, c2, s1, s2, c3, f1, f2, f3] =>
    if c1 = ':' ∧ c2 = ':' ∧ c3 = '.' then
      (parse2 h1 h2).bind fun h => (parse2 m1 m2).bind fun m =>
        (parse2 s1 s2).bind fun s => (parse3 f1 f2 f3).map fun f => (h, m, s, f * 1000)
    else none
  | [h1, h2, c1, m1, m2, c2, s1, s2, c3, f1, f2, f3, f4, f5, f6] =>
    if c1 = ':' ∧ c2 = ':' ∧ c3 = '.' then
      (parse2 h1 h2).bind fun h => (parse2 m1 m2).bind fun m =>
        (parse2 s1 s2).bind fun s =>
          (parse3 f1 f2 f3).bind fun fa => (parse3 f4 f5 f6).map fun fb =>
            (h, m, s, fa * 1000 + fb)
    else none
  | _ => none

/-- Split a time string at the first `'+'`/`'-'` sign (the timezone
separator search of CPython's `_parse_isoformat_time`). -/
def splitAtSign : List Char → List Char × Option (Char × List Char)
  | [] => ([], none)
  | c :: rest =>
    if c = '+' ∨ c = '-' then ([], some (c, rest))
    else
      let p := splitAtSign rest
      (c :: p.1, p.2)

/-- Gregorian leap year (as validated by `datetime.date`). -/
def isLeapYear (y : ℕ) : Bool := y % 4 = 0 && (y % 100 != 0 || y % 400 = 0)

/-- Number of days in a month (as validated by `datetime.date`). -/
def daysInMonth (y m : ℕ) : ℕ :=
  if m = 2 then (if isLeapYear y then 29 else 28)
  else if m = 4 ∨ m = 6 ∨ m = 9 ∨ m = 11 then 30
  else 31

/-- Range validation performed by the `datetime.date` constructor. -/
def validDate (y m d : ℕ) : Bool :=
  1 ≤ y && y ≤ 9999 && 1 ≤ m && m ≤ 12 && 1 ≤ d && d ≤ daysInMonth y m

/-- Range validation performed by the `datetime.time` constructor. -/
def validTime (h mi s micro : ℕ) : Bool :=
  h < 24 && mi < 60 && s < 60 && micro < 1000000

/-- The timezone offset string parser of CPython's
`_parse_isoformat_time`: the part after the sign must have length 5, 8 or
15 (`HH:MM`, `HH:MM:SS`, `HH:MM:SS.ffffff`); the resulting offset must be
strictly between -24h and +24h (`datetime.timezone` validation). -/
def parseTzOffset (sign : Char) (s : List Char) : Option ℤ :=
  if s.length = 5 ∨ s.length = 8 ∨ s.length = 15 then
    (parseHMSF s).bind fun hmsf =>
      let mag : ℤ := ((hmsf.1 * 3600 + hmsf.2.1 * 60 + hmsf.2.2.1) * 1000000 + hmsf.2.2.2 : ℕ)
      let off : ℤ := if sign = '-' then -mag else mag
      if -86400000000 < off ∧ off < 86400000000 then some off else none
  else none

/-- `datetime.datetime.fromisoformat` (the positional parser of
CPython ≤ 3.10): a 10-character `YYYY-MM-DD` date, then optionally one
separator character followed by a time and an optional signed timezone
offset; all components range-validated. -/
def fromisoformat : List Char → Option PyDatetime
  | y1 :: y2 :: y3 :: y4 :: s1 :: mo1 :: mo2 :: s2 :: d1 :: d2 :: rest =>
    if s1 = '-' ∧ s2 = '-' then
      (parse4 y1 y2 y3 y4).bind fun y =>
        (parse2 mo1 mo2).bind fun mo =>
          (parse2 d1 d2).bind fun d =>
            if validDate y mo d then
              match rest with
              | [] => some ⟨y, mo, d, 0, 0, 0, 0, none⟩
              | _ :: tstr =>
                let p := splitAtSign tstr
                (parseHMSF p.1).bind fun hmsf =>
                  if validTime hmsf.1 hmsf.2.1 hmsf.2.2.1 hmsf.2.2.2 then
                    match p.2 with
                    | none => some ⟨y, mo, d, hmsf.1, hmsf.2.1, hmsf.2.2.1, hmsf.2.2.2, none⟩
                    | some (sign, tzstr) =>
                      (parseTzOffset sign tzstr).map fun off =>
                        ⟨y, mo, d, hmsf.1, hmsf.2.1, hmsf.2.2.1, hmsf.2.2.2, some off⟩
                  else none
            else none
    else none
  | _ => none

/-- A JSON-ish value as held in the reply dict (after the two timestamp
fields have possibly been parsed into datetimes). -/
inductive JVal where
  | jstr : PyStr → JVal
  | jdt : PyDatetime → JVal
  | jnum : ℤ → JVal
  | jbool : Bool → JVal
  | jnull : JVal
deriving DecidableEq

/-- The `AcquiredRessource` dataclass.  The dataclass performs no type
validation, so every field holds whatever value the reply dict held
(timestamps become `jdt` only when the wire value was a string). -/
structure AcquiredRessource where
  resource : JVal
  lock_id : JVal
  tenant_id : JVal
  created : JVal
  expires : JVal
  user_agent : JVal
  user_data : JVal
deriving DecidableEq

/-- The field names checked by `AcquiredRessource.from_dict`, in the order
of the source's `for f in (...)` tuple. -/
def requiredFields : List PyStr :=
  ["lock_id".toList, "resource".toList, "tenant_id".toList, "created".toList,
   "expires".toList, "user_agent".toList, "user_data".toList]

/-- The first required field missing from the dict, if any (the field
whose absence `from_dict` reports). -/
def firstMissing (d : List (PyStr × JVal)) : Option PyStr :=
  requiredFields.find? fun f => (d.lookup f).isNone

/-- How `from_dict` transforms a timestamp field value:
`datetime.fromisoformat(v.replace("Z", "+00:00"))` when the value is a
string (`none` = the `ValueError` the parser raises), other values left
unchanged. -/
def parseDtField : JVal → Option JVal
  | .jstr s => (fromisoformat (replaceZ s)).map .jdt
  | v => some v

/-- Failure modes of `AcquiredRessource.from_dict`:
`missingField f` is the `DistributedLockError("bad reply from service,
missing f")` (the decode error); `valueError` the uncaught `ValueError`
from `fromisoformat`; `typeError` the `TypeError` from `cls(**d2)` when
the dict holds a key that is not a dataclass field. -/
inductive DecodeErr where
  | missingField : PyStr → DecodeErr
  | valueError : DecodeErr
  | typeError : DecodeErr
deriving DecidableEq

/-- `AcquiredRessource.from_dict`: check each required field is present
(raising the decode error for the first missing one), parse the two
timestamp fields when they are strings, then build the dataclass from the
dict's entries (`cls(**d2)`, which fails on unknown keys). -/
def AcquiredRessource.from_dict (d : List (PyStr × JVal)) : Except DecodeErr AcquiredRessource :=
  match firstMissing d with
  | some f => .error (.missingField f)
  | none =>
    match d.lookup "resource".toList, d.lookup "lock_id".toList, d.lookup "tenant_id".toList,
        d.lookup "created".toList, d.lookup "expires".toList,
        d.lookup "user_agent".toList, d.lookup "user_data".toList with
    | some rv, some lv, some tv, some cv, some ev, some uav, some udv =>
      match parseDtField cv, parseDtField ev with
      | some c, some e =>
        if d.all (fun kv => requiredFields.contains kv.1) then
          .ok ⟨rv, lv, tv, c, e, uav, udv⟩
        else .error .typeError
      | _, _ => .error .valueError
    | _, _, _, _, _, _, _ =>
      -- unreachable: `firstMissing d = none` forces all seven lookups to succeed
      .error (.missingField [])

/-- The wire form of a timestamp field produced by `to_dict`:
`d[f].isoformat()[0:19] + "Z"` (`none` models the `AttributeError` when
the field does not hold a datetime). -/
def toWireTimestamp : JVal → Option JVal
  | .jdt t => some (.jstr (t.isoformat.take 19 ++ ['Z']))
  | _ => none

/-- `AcquiredRessource.to_dict`: `asdict(self)` in dataclass field order,
with the two timestamp fields serialized by `toWireTimestamp`. -/
def AcquiredRessource.to_dict (r : AcquiredRessource) : Option (List (PyStr × JVal)) :=
  (toWireTimestamp r.created).bind fun c =>
    (toWireTimestamp r.expires).map fun e =>
      [("resource".toList, r.resource), ("lock_id".toList, r.lock_id),
       ("tenant_id".toList, r.tenant_id), ("created".toList, c), ("expires".toList, e),
       ("user_agent".toList, r.user_agent), ("user_data".toList, r.user_data)]

/-! ## Transport adapter (`DistributedLockClient._request` in `sync.py`) -/

/-- What the single `httpx` exchange performed by `_request` produced: a
transport-level failure, or a response with its status code and the
server message the body's JSON would yield (`none` when the body is not
JSON or lacks a `message` key, i.e. when `r.json()["message"]` raises). -/
inductive TransportResult where
  | connectTimeout : TransportResult
  | readTimeout : TransportResult
  | writeTimeout : TransportResult
  | poolTimeout : TransportResult
  | otherHttpError : TransportResult
  | response : ℕ → Option PyStr → TransportResult
deriving DecidableEq

/-- A failure raised by `_request`: `err m` is `error_class(m)` (the hard
error), `exc m` is `exception_class(m)` (the contention exception). -/
inductive RequestFailure where
  | err : PyStr → RequestFailure
  | exc : PyStr → RequestFailure
deriving DecidableEq

/-- Evaluation of the f-string
`f"got a HTTP/403 Forbidden error with message: {r.json()['message']}"`:
`none` when `r.json()["message"]` raises. -/
def format403 (jsonMessage : Option PyStr) : Option PyStr :=
  jsonMessage.map fun m =>
    "got a HTTP/403 Forbidden error with message: ".toList ++ m

/-- Evaluation of the corresponding HTTP/429 f-string. -/
def format429 (jsonMessage : Option PyStr) : Option PyStr :=
  jsonMessage.map fun m =>
    "got a HTTP/429 Rate limited error with message: ".toList ++ m

/-- The failure `_request` raises for a 403 response.  In the source the
detailed `error_class(...)` is raised *inside* the `try` block whose
`except Exception` clause catches every `Exception` — including the
freshly raised `error_class` itself — so on both paths the surfaced
failure is the no-detail one:

```
try:
    raise error_class(
        f"got a HTTP/403 Forbidden error with message: {r.json()['message']}"
    )
except Exception:
    raise error_class("got an HTTP/403 Forbidden with no detail") from None
``` -/
def status403Failure (jsonMessage : Option PyStr) : RequestFailure :=
  match format403 jsonMessage with
  | some _ =>
    -- detailed error raised, immediately caught by `except Exception`, replaced
    .err "got an HTTP/403 Forbidden with no detail".toList
  | none =>
    -- message extraction raised, caught, replaced
    .err "got an HTTP/403 Forbidden with no detail".toList

/-- The failure `_request` raises for a 429 response (same caught-own-raise
structure as the 403 branch). -/
def status429Failure (jsonMessage : Option PyStr) : RequestFailure :=
  match format429 jsonMessage with
  | some _ => .err "got an HTTP/429 Forbidden with no detail".toList
  | none => .err "got an HTTP/429 Forbidden with no detail".toList

/-- Decimal rendering of a status code, as interpolated by the f-string. -/
def natToChars (n : ℕ) : PyStr := (Nat.repr n).toList

/-- `DistributedLockClient._request`: classify the outcome of the single
network exchange.  Transport failures and non-2xx statuses are mapped to
failures; a status in `[200, 300)` returns the response. -/
def requestStep (t : TransportResult) : Except RequestFailure (ℕ × Option PyStr) :=
  match t with
  | .connectTimeout => .error (.err "timeout during connect".toList)
  | .readTimeout => .error (.err "timeout during read".toList)
  | .writeTimeout => .error (.err "timeout during write".toList)
  | .poolTimeout => .error (.err "timeout in connection pool".toList)
  | .otherHttpError => .error (.err "generic http error".toList)
  | .response st msg =>
    if st = 409 then .error (.exc "got a HTTP/409 Conflict".toList)
    else if st = 403 then .error (status403Failure msg)
    else if st = 429 then .error (status429Failure msg)
    else if st < 200 ∨ 300 ≤ st then
      .error (.err ("unexpected status code: ".toList ++ natToChars st))
    else .ok (st, msg)

/-! ## Scoped helper (`DistributedLockClient.exclusive_lock` in `sync.py`)

The context manager

```
ar: AcquiredRessource | None = None
try:
    ar = self.acquire_exclusive_lock(...)
    yield
finally:
    if ar is not None:
        self.release_exclusive_lock(resource=resource, lock_id=ar.lock_id, ...)
```

is modelled denotationally over the outcomes of its three collaborators:
the acquire call, the guarded body run at the `yield`, and the release
call (a function of the lock id it is invoked with).  The model returns
the overall outcome together with the list of lock ids passed to release
calls, in order. -/

/-- Outcome of the `with` block: a value or a propagated exception. -/
inductive ScopedOutcome (ε β : Type) where
  | value : β → ScopedOutcome ε β
  | raised : ε → ScopedOutcome ε β
deriving DecidableEq

/-- Denotation of `exclusive_lock` used as `with client.exclusive_lock(r): body`:
* acquire raises → `ar` stays `None`, the body never runs, the `finally`
  releases nothing, the acquire failure propagates;
* acquire succeeds → the body runs; the `finally` always calls release
  once with `ar.lock_id`; a release failure propagates (replacing the
  body's outcome), otherwise the body's outcome stands. -/
def exclusiveLockScope {ε β : Type}
    (acquireResult : Except ε AcquiredRessource)
    (bodyResult : Except ε β)
    (releaseResult : JVal → Except ε Unit) :
    ScopedOutcome ε β × List JVal :=
  match acquireResult with
  | .error e => (.raised e, [])
  | .ok ar =>
    let afterBody : ScopedOutcome ε β :=
      match bodyResult with
      | .ok b => .value b
      | .error e => .raised e
    match releaseResult ar.lock_id with
    | .ok _ => (afterBody, [ar.lock_id])
    | .error re => (.raised re, [ar.lock_id])

/-! ## Configuration loading (`common.py`) and auth header (`sync.py`) -/

/-- Python truthiness of `os.environ.get(var)`: false for an unset
variable and for the empty string. -/
def pyTruthyStr : Option PyStr → Bool
  | none => false
  | some s => !s.isEmpty

/-- `str.lower()` restricted to ASCII letters (the `Char.toLower` map). -/
def pyLower (s : PyStr) : PyStr := s.map Char.toLower

/-- Python `str.strip()` whitespace test, for the ASCII whitespace
characters. -/
def pyIsSpace (c : Char) : Bool :=
  c = ' ' ∨ c = '\t' ∨ c = '\n' ∨ c = '\r' ∨ c = '\x0b' ∨ c = '\x0c'

/-- `str.strip()`: drop leading and trailing whitespace. -/
def pyStrip (s : PyStr) : PyStr :=
  ((s.dropWhile pyIsSpace).reverse.dropWhile pyIsSpace).reverse

/-- `DEFAULT_CLUSTER` from `const.py`. -/
def DEFAULT_CLUSTER : PyStr := "europe-free".toList

/-- `get_cluster`: the `DLOCK_CLUSTER` env value lowercased then
stripped, or the default when unset/empty. -/
def get_cluster (env : Option PyStr) : PyStr :=
  if pyTruthyStr env then pyStrip (pyLower (env.getD []))
  else DEFAULT_CLUSTER

/-- `get_token`: the `DLOCK_TOKEN` env value lowercased then stripped;
a `BadConfigurationError` when unset/empty. -/
def get_token (env : Option PyStr) : Except PyStr PyStr :=
  if pyTruthyStr env then .ok (pyStrip (pyLower (env.getD [])))
  else .error "You must provide a token (or set DLOCK_TOKEN env var)".toList

/-- `get_tenant_id`: the `DLOCK_TENANT_ID` env value lowercased then
stripped; a `BadConfigurationError` when unset/empty. -/
def get_tenant_id (env : Option PyStr) : Except PyStr PyStr :=
  if pyTruthyStr env then .ok (pyStrip (pyLower (env.getD [])))
  else .error "You must provide a tenant_id (or set DLOCK_TENANT_ID env var)".toList

/-- `DistributedLockClient._get_headers()`:
`{"Authorization": f"Bearer {self.token}"}`. -/
def getHeaders (token : PyStr) : List (PyStr × PyStr) :=
  [("Authorization".toList, "Bearer ".toList ++ token)]

/-! ## Concrete scenarios used to settle individual claims -/

/-- Non-termination of a retry-loop run: every fuel bound is exhausted. -/
def runsForever {α : Type} (cfg : RetryCfg)
    (attempt : ℕ → Option ℚ → AttemptOutcome α × ℚ) : Prop :=
  ∀ fuel, (withRetry cfg attempt fuel).result = .diverged

/-- Acquire call with `wait=60` (the default) and `sleep_after_failure=0`,
which the code accepts without rejecting or clamping. -/
def zeroBackoffCfg : RetryCfg := ⟨60, true, 0, false, 60⟩

/-- A resource that is always held by someone else: every attempt raises
contention; attempts answered instantaneously. -/
def alwaysContention : ℕ → Option ℚ → AttemptOutcome ℕ × ℚ :=
  fun _ _ => (.contention 0, 0)

/-- Acquire call with `wait=10`, `automatic_retry=True`,
`sleep_after_failure=1` against a client with `server_side_wait=7`. -/
def tightCfg : RetryCfg := ⟨10, true, 1, true, 7⟩

/-- Contention on every attempt; the first attempt takes 2.5 s of
wall-clock time, later ones are instantaneous. -/
def slowFirstContention : ℕ → Option ℚ → AttemptOutcome ℕ × ℚ :=
  fun n _ => (.contention 0, if n = 0 then 5 / 2 else 0)

/-- Acquire call with `wait=3`, `sleep_after_failure=1` against a client
with `server_side_wait=1` (a ceiling of exactly 1 second). -/
def ceilingOneCfg : RetryCfg := ⟨3, true, 1, true, 1⟩

/-- Contention on every attempt; the first attempt takes 2 s. -/
def slowFirstContention2 : ℕ → Option ℚ → AttemptOutcome ℕ × ℚ :=
  fun n _ => (.contention 0, if n = 0 then 2 else 0)

/-- A service reply carrying only the five fields the spec lists as
required, omitting `user_agent` and `user_data`. -/
def bodyWithoutOptionals : List (PyStr × JVal) :=
  [("resource".toList, .jstr "bar".toList),
   ("lock_id".toList, .jstr "1234".toList),
   ("tenant_id".toList, .jstr "tenant".toList),
   ("created".toList, .jstr "2024-01-02T03:04:05Z".toList),
   ("expires".toList, .jstr "2024-01-02T04:04:05Z".toList)]

/-- The same service reply with all seven fields present. -/
def bodyAllFields : List (PyStr × JVal) :=
  bodyWithoutOptionals
    ++ [("user_agent".toList, .jstr "foo/1.0".toList), ("user_data".toList, .jnull)]

/-- A concrete valid lock record (naive whole-second timestamps). -/
def sampleRecord : AcquiredRessource :=
  ⟨.jstr "bar".toList, .jstr "1234".toList, .jstr "tenant".toList,
   .jdt ⟨2024, 1, 2, 3, 4, 5, 0, none⟩, .jdt ⟨2024, 1, 2, 4, 4, 5, 0, none⟩,
   .jstr "foo/1.0".toList, .jnull⟩

/-! ## Theorems -/

/-- C1: for every run of the retry loop (entered at an arbitrary
iteration `n`, elapsed clock `e` and forced wait `f`): after a failed
attempt, if the elapsed time since the loop started is strictly greater
than `total_wait - retry_backoff`, the loop stops — no further attempt,
no sleep — and raises exactly the failure caught on the most recent
attempt (whether hard error or contention), not any earlier failure. -/
theorem retry_deadline_raises_last_failure {α : Type} (cfg : RetryCfg)
    (attempt : ℕ → Option ℚ → AttemptOutcome α × ℚ)
    (fuel n : ℕ) (e : ℚ) (f : Option ℚ) (r : Raised)
    (hfail : ((attempt n f).1).failure = some r)
    (hdl : e + (attempt n f).2 > cfg.wait - cfg.sleepAfterFailure) :
    withRetryGo cfg attempt (fuel + 1) n e f = ⟨.raised r, [f], 0⟩ := by
  cases hatt : (attempt n f).1 with
  | success a => simp [AttemptOutcome.failure, hatt] at hfail
  | hardError t =>
    simp only [AttemptOutcome.failure, hatt, Option.some.injEq] at hfail
    subst hfail
    by_cases hauto : cfg.automaticRetry
    · simp [withRetryGo, hatt, hauto, hdl]
    · simp [withRetryGo, hatt, hauto]
  | contention t =>
    simp only [AttemptOutcome.failure, hatt, Option.some.injEq] at hfail
    subst hfail
    simp [withRetryGo, hatt, hdl]

/-- Witness for C1 at a concrete input: a first attempt that takes 4 s
and fails hard, against `wait=3`, `sleep_after_failure=1`. -/
theorem retry_deadline_raises_last_failure_witness :
    withRetryGo (⟨3, true, 1, false, 60⟩ : RetryCfg)
        (fun _ _ => ((.hardError 5 : AttemptOutcome ℕ), (4 : ℚ))) 1 0 0 none
      = ⟨.raised (.hard 5), [none], 0⟩ :=
  retry_deadline_raises_last_failure ⟨3, true, 1, false, 60⟩
    (fun _ _ => ((.hardError 5 : AttemptOutcome ℕ), (4 : ℚ))) 0 0 0 none (.hard 5)
    rfl (by norm_num)

/-- C3: with `automatic_retry=False`, an attempt that fails with a hard
error (`DistributedLockError`) causes exactly one attempt — the failure
propagates immediately, with no sleep and no further attempt. -/
theorem no_automatic_retry_hard_error_single_attempt {α : Type} (cfg : RetryCfg)
    (attempt : ℕ → Option ℚ → AttemptOutcome α × ℚ)
    (fuel n : ℕ) (e : ℚ) (f : Option ℚ) (t : ℕ)
    (hauto : cfg.automaticRetry = false)
    (hatt : (attempt n f).1 = .hardError t) :
    withRetryGo cfg attempt (fuel + 1) n e f = ⟨.raised (.hard t), [f], 0⟩ := by
  simp [withRetryGo, hatt, hauto]

/-- Witness for C3 at a concrete input: an immediate hard error with
`automatic_retry=False`. -/
theorem no_automatic_retry_hard_error_single_attempt_witness :
    withRetryGo (⟨3, false, 1, false, 60⟩ : RetryCfg)
        (fun _ _ => ((.hardError 2 : AttemptOutcome ℕ), (0 : ℚ))) 1 0 0 none
      = ⟨.raised (.hard 2), [none], 0⟩ :=
  no_automatic_retry_hard_error_single_attempt ⟨3, false, 1, false, 60⟩
    (fun _ _ => ((.hardError 2 : AttemptOutcome ℕ), (0 : ℚ))) 0 0 0 none 2 rfl rfl

/-- C4: a contention failure (`DistributedLockException`, the HTTP/409
signal) is never propagated by the `automatic_retry=False` branch —
whatever `automatic_retry` is, it feeds the retry decision: while the
deadline allows, the loop sleeps once and proceeds to the next attempt;
only the deadline-exhaustion exit surfaces the contention failure. -/
theorem contention_feeds_retry_decision {α : Type} (cfg : RetryCfg)
    (attempt : ℕ → Option ℚ → AttemptOutcome α × ℚ)
    (fuel n : ℕ) (e : ℚ) (f : Option ℚ) (t : ℕ)
    (hatt : (attempt n f).1 = .contention t) :
    (e + (attempt n f).2 > cfg.wait - cfg.sleepAfterFailure →
      withRetryGo cfg attempt (fuel + 1) n e f = ⟨.raised (.cont t), [f], 0⟩)
    ∧ (¬ e + (attempt n f).2 > cfg.wait - cfg.sleepAfterFailure →
      withRetryGo cfg attempt (fuel + 1) n e f =
        (let elapsed := e + (attempt n f).2
         let forced2 : Option ℚ :=
           if cfg.serverSideWaitFlag
               ∧ elapsed + cfg.sleepAfterFailure + cfg.serverSideWait > cfg.wait then
             some ((max (truncTowardZero (cfg.wait - elapsed - cfg.sleepAfterFailure)) 1 : ℤ) : ℚ)
           else f
         let rest := withRetryGo cfg attempt fuel (n + 1)
           (elapsed + cfg.sleepAfterFailure) forced2
         ⟨rest.result, f :: rest.forcedLog, rest.sleeps + 1⟩)) := by
  constructor
  · intro hdl
    simp [withRetryGo, hatt, hdl]
  · intro hdl
    simp [withRetryGo, hatt, hdl]

/-- Witness for C4 at a concrete input: a first-attempt 409 with
`automatic_retry=False` and budget left leads to one sleep and a second
attempt, not immediate propagation. -/
theorem contention_feeds_retry_decision_witness :
    withRetryGo (⟨3, false, 1, false, 60⟩ : RetryCfg) alwaysContention 1 0 0 none
      = ⟨.diverged, [none], 1⟩ := by
  have h := (contention_feeds_retry_decision ⟨3, false, 1, false, 60⟩
    alwaysContention 0 0 0 none 0 rfl).2 (by norm_num [alwaysContention])
  rw [h]
  rfl

/-- C5 (divergence demonstration): `sleep_after_failure=0` is accepted
unvalidated, and with it a run whose every attempt fails instantly never
terminates — the elapsed clock never advances, so the deadline exit is
never taken, for any number of iterations. -/
theorem zero_backoff_loop_never_terminates :
    runsForever zeroBackoffCfg alwaysContention := by
  intro fuel
  suffices h : ∀ fuel n f,
      (withRetryGo zeroBackoffCfg alwaysContention fuel n 0 f).result = .diverged from
    h fuel 0 none
  intro fuel
  induction fuel with
  | zero => intro n f; rfl
  | succ k ih =>
    intro n f
    simpa [withRetryGo, alwaysContention, zeroBackoffCfg] using ih (n + 1) f

/-- Helper: one unfolding step of the retry loop. -/
theorem withRetryGo_succ {α : Type} (cfg : RetryCfg)
    (attempt : ℕ → Option ℚ → AttemptOutcome α × ℚ)
    (fuel n : ℕ) (elapsedBefore : ℚ) (forced : Option ℚ) :
    withRetryGo cfg attempt (fuel + 1) n elapsedBefore forced =
      (let elapsed := elapsedBefore + (attempt n forced).2
       let keepRetrying : Raised → RunOut α := fun r =>
         if elapsed > cfg.wait - cfg.sleepAfterFailure then
           ⟨.raised r, [forced], 0⟩
         else
           let forced2 : Option ℚ :=
             if cfg.serverSideWaitFlag
                 ∧ elapsed + cfg.sleepAfterFailure + cfg.serverSideWait > cfg.wait then
               some ((max (truncTowardZero (cfg.wait - elapsed - cfg.sleepAfterFailure)) 1 : ℤ) : ℚ)
             else forced
           let rest := withRetryGo cfg attempt fuel (n + 1)
             (elapsed + cfg.sleepAfterFailure) forced2
           ⟨rest.result, forced :: rest.forcedLog, rest.sleeps + 1⟩
       match (attempt n forced).1 with
       | .success a => ⟨.ok a, [forced], 0⟩
       | .hardError t =>
         if cfg.automaticRetry then keepRetrying (.hard t)
         else ⟨.raised (.hard t), [forced], 0⟩
       | .contention t => keepRetrying (.cont t)) := rfl

/-- Helper: a retry-loop run with fuel left always records the forced
wait it was entered with as the first attempt's forced wait. -/
theorem withRetryGo_forcedLog_head {α : Type} (cfg : RetryCfg)
    (attempt : ℕ → Option ℚ → AttemptOutcome α × ℚ)
    (fuel n : ℕ) (e : ℚ) (f : Option ℚ) :
    (withRetryGo cfg attempt (fuel + 1) n e f).forcedLog.get? 0 = some f := by
  cases hatt : (attempt n f).1 with
  | success a => simp [withRetryGo, hatt]
  | hardError t =>
    by_cases hauto : cfg.automaticRetry
    · simp only [withRetryGo, hatt, hauto] ; simp ; split <;> simp
    · simp only [withRetryGo, hatt, hauto] ; simp
  | contention t =>
    simp only [withRetryGo, hatt] ; simp ; split <;> simp

/-- C2 counterexample: two concrete acquire runs on which the claim, as
stated, fails.
* With `wait=10`, `retry_backoff=1`, `server_side_wait=7` and a first
  attempt failing after 2.5 s: the condition
  `elapsed + retry_backoff + ceiling > total_wait` holds (2.5+1+7 > 10),
  but the forced server-side wait passed to the next attempt is `6` —
  `max(int(10 - 2.5 - 1), 1)` with `int()` truncation — and not the
  claimed `max(10 - 2.5 - 1, 1) = 6.5`.
* With `wait=3`, `retry_backoff=1`, `server_side_wait=1` and a first
  attempt failing after 2 s: the next attempt's forced wait is `1`, and
  the request body's `wait` value `min(1, 1) = 1` equals the ceiling —
  it is not strictly less than `server_side_wait`. -/
theorem tightened_wait_claim_counterexample :
    ((withRetry tightCfg slowFirstContention 2).forcedLog.get? 1 = some (some 6)
        ∧ (6 : ℚ) ≠ max (tightCfg.wait - 5 / 2 - tightCfg.sleepAfterFailure) 1)
      ∧ ((withRetry ceilingOneCfg slowFirstContention2 2).forcedLog.get? 1 = some (some 1)
        ∧ ¬ acquireBodyWait (some 1) ceilingOneCfg.serverSideWait
            < ceilingOneCfg.serverSideWait) := by
  refine ⟨⟨?_, ?_⟩, ?_, ?_⟩
  · norm_num [withRetry, withRetryGo, slowFirstContention, tightCfg, truncTowardZero]
  · rw [max_eq_left (by norm_num [tightCfg])]
    norm_num [tightCfg]
  · norm_num [withRetry, withRetryGo, slowFirstContention2, ceilingOneCfg, truncTowardZero]
  · norm_num [acquireBodyWait, pyOrElse, ceilingOneCfg]

/-- C2 (amended): in an acquire retry iteration whose attempt failed and
whose run continues (deadline not exhausted), if
`elapsed + retry_backoff + server_wait_ceiling > total_wait` then the
next attempt is issued with a forced server-side wait equal to
`max(int(total_wait - elapsed - retry_backoff), 1)` — `int()` truncating
toward zero — and the `wait` value placed in any attempt's request body
never exceeds the configured `server_side_wait` ceiling; whenever the
ceiling is greater than 1, the next attempt's body `wait` is strictly
less than the ceiling. -/
theorem tightened_forced_wait_and_body_wait {α : Type} (cfg : RetryCfg)
    (attempt : ℕ → Option ℚ → AttemptOutcome α × ℚ)
    (fuel n : ℕ) (e : ℚ) (f : Option ℚ) (r : Raised)
    (hfail : ((attempt n f).1).failure = some r)
    (hcont : cfg.automaticRetry = true ∨ ∃ t, (attempt n f).1 = .contention t)
    (hdl : ¬ e + (attempt n f).2 > cfg.wait - cfg.sleepAfterFailure)
    (hflag : cfg.serverSideWaitFlag = true)
    (htight : e + (attempt n f).2 + cfg.sleepAfterFailure + cfg.serverSideWait > cfg.wait) :
    (withRetryGo cfg attempt (fuel + 2) n e f).forcedLog.get? 1 =
        some (some ((max (truncTowardZero
          (cfg.wait - (e + (attempt n f).2) - cfg.sleepAfterFailure)) 1 : ℤ) : ℚ))
      ∧ (∀ g : Option ℚ, acquireBodyWait g cfg.serverSideWait ≤ cfg.serverSideWait)
      ∧ (1 < cfg.serverSideWait →
          acquireBodyWait
            (some ((max (truncTowardZero
              (cfg.wait - (e + (attempt n f).2) - cfg.sleepAfterFailure)) 1 : ℤ) : ℚ))
            cfg.serverSideWait < cfg.serverSideWait) := by
  refine ⟨?_, fun g => min_le_right _ _, ?_⟩
  · cases hatt : (attempt n f).1 with
    | success a => simp [AttemptOutcome.failure, hatt] at hfail
    | hardError t =>
      have hauto : cfg.automaticRetry = true := by
        rcases hcont with h | ⟨t', h⟩
        · exact h
        · rw [hatt] at h ; exact absurd h (by simp)
      rw [show fuel + 2 = fuel + 1 + 1 from rfl, withRetryGo_succ]
      simp only [hatt, hauto, ite_true, hdl, if_false, hflag, true_and, htight, if_true]
      simpa using withRetryGo_forcedLog_head cfg attempt fuel (n + 1)
        (e + (attempt n f).2 + cfg.sleepAfterFailure) _
    | contention t =>
      rw [show fuel + 2 = fuel + 1 + 1 from rfl, withRetryGo_succ]
      simp only [hatt, hdl, if_false, hflag, true_and, htight, if_true]
      simpa using withRetryGo_forcedLog_head cfg attempt fuel (n + 1)
        (e + (attempt n f).2 + cfg.sleepAfterFailure) _
  · intro hc1
    set x : ℚ := cfg.wait - (e + (attempt n f).2) - cfg.sleepAfterFailure with hx
    have hxc : x < cfg.serverSideWait := by rw [hx] ; linarith
    have hTlt : ((truncTowardZero x : ℤ) : ℚ) < cfg.serverSideWait := by
      unfold truncTowardZero
      split
      · exact lt_of_le_of_lt (Int.floor_le x) hxc
      · have hx0 : x ≤ 0 := le_of_not_le (by assumption)
        have : (⌈x⌉ : ℤ) ≤ 0 := Int.ceil_le.mpr (by exact_mod_cast hx0)
        have : ((⌈x⌉ : ℤ) : ℚ) ≤ 0 := by exact_mod_cast this
        linarith
    have hF : ((max (truncTowardZero x) 1 : ℤ) : ℚ) < cfg.serverSideWait := by
      push_cast
      exact max_lt hTlt hc1
    have hF1 : (1 : ℚ) ≤ ((max (truncTowardZero x) 1 : ℤ) : ℚ) := by
      exact_mod_cast le_max_right (truncTowardZero x) 1
    have hFne : ((max (truncTowardZero x) 1 : ℤ) : ℚ) ≠ 0 := by linarith
    simp only [acquireBodyWait, pyOrElse, hFne, if_false]
    exact min_lt_iff.mpr (Or.inl hF)

/-- Witness for the amended C2 at a concrete input: `wait=10`,
`retry_backoff=1`, ceiling 7, first attempt fails after 2.5 s — the
second attempt's forced wait is 6 and the body `wait` 6 < 7. -/
theorem tightened_forced_wait_and_body_wait_witness :
    (withRetryGo tightCfg slowFirstContention 2 0 0 none).forcedLog.get? 1 = some (some 6)
      ∧ acquireBodyWait (some 6) tightCfg.serverSideWait < tightCfg.serverSideWait := by
  have h := tightened_forced_wait_and_body_wait tightCfg slowFirstContention 0 0 0 none
    (.cont 0) (by decide) (Or.inl rfl) (by norm_num [slowFirstContention, tightCfg])
    rfl (by norm_num [slowFirstContention, tightCfg])
  have hF : ((max (truncTowardZero
      (tightCfg.wait - ((0 : ℚ) + (slowFirstContention 0 none).2)
        - tightCfg.sleepAfterFailure)) 1 : ℤ) : ℚ) = 6 := by
    have h1 : tightCfg.wait - ((0 : ℚ) + (slowFirstContention 0 none).2)
        - tightCfg.sleepAfterFailure = 13 / 2 := by
      norm_num [slowFirstContention, tightCfg]
    rw [h1]
    have h2 : truncTowardZero (13 / 2 : ℚ) = 6 := by
      rw [truncTowardZero, if_pos (by norm_num)]
      norm_num
    rw [h2]
    norm_num
  obtain ⟨h1, _, h3⟩ := h
  rw [hF] at h1
  refine ⟨h1, ?_⟩
  have := h3 (by norm_num [tightCfg])
  rw [hF] at this
  exact this

/-- C8: in the scoped helper, if acquire fails nothing is released and
the acquire failure propagates; if acquire succeeds, release is attempted
exactly once with the lock id obtained at acquire time — both when the
guarded body completes normally and when it raises — and a release
failure propagates to the caller after the guarded work has finished,
while after a successful release the body's own outcome stands. -/
theorem exclusive_lock_releases_exactly_once {ε β : Type}
    (acq : Except ε AcquiredRessource) (bodyRes : Except ε β)
    (rel : JVal → Except ε Unit) :
    (∀ e, acq = .error e →
        exclusiveLockScope acq bodyRes rel = (.raised e, []))
    ∧ (∀ ar, acq = .ok ar →
        (exclusiveLockScope acq bodyRes rel).2 = [ar.lock_id]
        ∧ (∀ re, rel ar.lock_id = .error re →
            (exclusiveLockScope acq bodyRes rel).1 = .raised re)
        ∧ (∀ b, bodyRes = .ok b → rel ar.lock_id = .ok () →
            (exclusiveLockScope acq bodyRes rel).1 = .value b)
        ∧ (∀ be, bodyRes = .error be → rel ar.lock_id = .ok () →
            (exclusiveLockScope acq bodyRes rel).1 = .raised be)) := by
  constructor
  · intro e he ; subst he ; rfl
  · intro ar har ; subst har
    refine ⟨?_, ?_, ?_, ?_⟩
    · cases hrel : rel ar.lock_id <;> simp [exclusiveLockScope, hrel]
    · intro re hre ; simp [exclusiveLockScope, hre]
    · intro b hb hrel ; subst hb ; simp [exclusiveLockScope, hrel]
    · intro be hbe hrel ; subst hbe ; simp [exclusiveLockScope, hrel]

/-- Witness for C8 at a concrete input: acquire succeeds with lock id
`"1234"`, the guarded body raises `5`, release raises `9` — release is
called once with `"1234"` and its failure propagates after the body. -/
theorem exclusive_lock_releases_exactly_once_witness :
    (exclusiveLockScope (ε := ℕ) (β := ℕ)
        (.ok ⟨.jnull, .jstr "1234".toList, .jnull, .jnull, .jnull, .jnull, .jnull⟩)
        (.error 5) (fun _ => .error 9)).2 = [.jstr "1234".toList]
    ∧ (exclusiveLockScope (ε := ℕ) (β := ℕ)
        (.ok ⟨.jnull, .jstr "1234".toList, .jnull, .jnull, .jnull, .jnull, .jnull⟩)
        (.error 5) (fun _ => .error 9)).1 = .raised 9 := by
  have h := (exclusive_lock_releases_exactly_once (ε := ℕ) (β := ℕ)
      (.ok ⟨.jnull, .jstr "1234".toList, .jnull, .jnull, .jnull, .jnull, .jnull⟩)
      (.error 5) (fun _ => .error 9)).2
      ⟨.jnull, .jstr "1234".toList, .jnull, .jnull, .jnull, .jnull, .jnull⟩ rfl
  exact ⟨h.1, h.2.1 9 rfl⟩

/-- C9 (code bug evaluation): a 403 response whose JSON body does carry a
server message (`"quota exceeded"`, so the f-string interpolation
succeeds, second conjunct) is nonetheless mapped to the no-detail hard
error  — the detailed `error_class(...)` is raised inside the `try` block
whose `except Exception` catches it, so the server message is never
included in the surfaced failure.  The 429 branch behaves the same way
(third conjunct). -/
theorem status403_message_swallowed :
    requestStep (.response 403 (some "quota exceeded".toList))
      = .error (.err "got an HTTP/403 Forbidden with no detail".toList)
    ∧ format403 (some "quota exceeded".toList)
      = some ("got a HTTP/403 Forbidden error with message: quota exceeded".toList)
    ∧ requestStep (.response 429 (some "quota exceeded".toList))
      = .error (.err "got an HTTP/429 Forbidden with no detail".toList) := by
  refine ⟨rfl, rfl, rfl⟩

/-- C10: environment configuration values are transformed before use —
`get_cluster`, `get_token` and `get_tenant_id` each return the lowercased
then whitespace-stripped env value, and the Authorization header carries
`Bearer ` followed by that transformed token, not the value as provided
(last two conjuncts: for `DLOCK_TOKEN=" TOK "` the header token is
`"tok"`, which differs from the raw value). -/
theorem env_config_lowercased_stripped (v : PyStr) (hv : v.isEmpty = false) :
    get_token (some v) = .ok (pyStrip (pyLower v))
    ∧ get_tenant_id (some v) = .ok (pyStrip (pyLower v))
    ∧ get_cluster (some v) = pyStrip (pyLower v)
    ∧ getHeaders (pyStrip (pyLower v))
        = [("Authorization".toList, "Bearer ".toList ++ pyStrip (pyLower v))]
    ∧ get_token (some " TOK ".toList) = .ok "tok".toList
    ∧ ("tok".toList : PyStr) ≠ " TOK ".toList := by
  refine ⟨?_, ?_, ?_, rfl, ?_, ?_⟩
  · simp [get_token, pyTruthyStr, hv]
  · simp [get_tenant_id, pyTruthyStr, hv]
  · simp [get_cluster, pyTruthyStr, hv]
  · rfl
  · decide

/-- Witness for C10 at a concrete input: `" TOK "` is transformed to
`"tok"` by both the token and the cluster loaders. -/
theorem env_config_lowercased_stripped_witness :
    get_token (some " TOK ".toList) = .ok (pyStrip (pyLower " TOK ".toList))
    ∧ get_cluster (some " TOK ".toList) = pyStrip (pyLower " TOK ".toList) := by
  have h := env_config_lowercased_stripped " TOK ".toList (by decide)
  exact ⟨h.1, h.2.2.1⟩

/-! ### Codec helper lemmas -/

/-- Helper: `digitChar` of a digit is a decimal digit character. -/
theorem digitChar_isDigit {k : ℕ} (h : k < 10) : (digitChar k).isDigit = true := by
  interval_cases k <;> decide

/-- Helper: `charVal` inverts `digitChar` on digits. -/
theorem charVal_digitChar {k : ℕ} (h : k < 10) : charVal (digitChar k) = k := by
  interval_cases k <;> decide

/-- Helper: a digit character is not `'Z'`. -/
theorem digitChar_ne_Z {k : ℕ} (h : k < 10) : digitChar k ≠ 'Z' := by
  interval_cases k <;> decide

/-- Helper: a digit character is not a timezone sign. -/
theorem digitChar_not_sign {k : ℕ} (h : k < 10) :
    ¬(digitChar k = '+' ∨ digitChar k = '-') := by
  interval_cases k <;> decide

/-- Helper: `parse2` inverts `pad2` for `n < 100`. -/
theorem parse2_pad2 {n : ℕ} (h : n < 100) :
    parse2 (digitChar (n / 10)) (digitChar (n % 10)) = some n := by
  have h1 : n / 10 < 10 := by omega
  have h2 : n % 10 < 10 := Nat.mod_lt _ (by norm_num)
  rw [parse2, if_pos ⟨digitChar_isDigit h1, digitChar_isDigit h2⟩,
    charVal_digitChar h1, charVal_digitChar h2]
  congr 1
  omega

/-- Helper: `parse4` inverts `pad4` for `n < 10000`. -/
theorem parse4_pad4 {n : ℕ} (h : n < 10000) :
    parse4 (digitChar (n / 1000)) (digitChar (n / 100 % 10))
      (digitChar (n / 10 % 10)) (digitChar (n % 10)) = some n := by
  have h1 : n / 1000 < 10 := by omega
  have h2 : n / 100 % 10 < 10 := Nat.mod_lt _ (by norm_num)
  have h3 : n / 10 % 10 < 10 := Nat.mod_lt _ (by norm_num)
  have h4 : n % 10 < 10 := Nat.mod_lt _ (by norm_num)
  rw [parse4, if_pos ⟨digitChar_isDigit h1, digitChar_isDigit h2,
    digitChar_isDigit h3, digitChar_isDigit h4⟩,
    charVal_digitChar h1, charVal_digitChar h2, charVal_digitChar h3, charVal_digitChar h4]
  congr 1
  omega

/-- Helper: `replaceZ` distributes over append. -/
theorem replaceZ_append (l1 l2 : List Char) :
    replaceZ (l1 ++ l2) = replaceZ l1 ++ replaceZ l2 := by
  induction l1 with
  | nil => rfl
  | cons c t ih =>
    by_cases hc : c = 'Z' <;> simp [replaceZ, hc, ih]

/-- Helper: `splitAtSign` skips a non-sign character. -/
theorem splitAtSign_cons_nonsign {c : Char} {rest : List Char}
    (h : ¬(c = '+' ∨ c = '-')) :
    splitAtSign (c :: rest) =
      ((c :: (splitAtSign rest).1), (splitAtSign rest).2) := by
  simp [splitAtSign, h]

/-- Helper: `splitAtSign` splits at a leading `'+'`. -/
theorem splitAtSign_cons_plus (rest : List Char) :
    splitAtSign ('+' :: rest) = ([], some ('+', rest)) := by
  simp [splitAtSign]

/-- Helper: `isoformat()[0:19]` is exactly the date-time core, whatever
the microsecond and timezone parts are. -/
theorem isoformat_take19 (t : PyDatetime) : t.isoformat.take 19 = isoCore t := by
  have hassoc : t.isoformat = isoCore t
      ++ ((if t.microsecond = 0 then [] else '.' :: pad6 t.microsecond)
          ++ offsetChars t.utcOffsetMicros) := by
    rw [PyDatetime.isoformat, List.append_assoc]
  have hlen : (isoCore t).length = 19 := rfl
  rw [hassoc, ← hlen, List.take_left]

/-- Helper: `daysInMonth` is at most 31. -/
theorem daysInMonth_le_31 (y m : ℕ) : daysInMonth y m ≤ 31 := by
  rw [daysInMonth]
  split_ifs <;> norm_num

/-- Helper: `replaceZ` fixes the 19-character date-time core. -/
theorem replaceZ_isoCore {t : PyDatetime}
    (hy : t.year < 10000) (hmo : t.month < 100) (hd : t.day < 100)
    (hh : t.hour < 100) (hmi : t.minute < 100) (hs : t.second < 100) :
    replaceZ (isoCore t) = isoCore t := by
  have hy1 : t.year / 1000 < 10 := by omega
  have hy2 : t.year / 100 % 10 < 10 := Nat.mod_lt _ (by norm_num)
  have hy3 : t.year / 10 % 10 < 10 := Nat.mod_lt _ (by norm_num)
  have hy4 : t.year % 10 < 10 := Nat.mod_lt _ (by norm_num)
  have hmo1 : t.month / 10 < 10 := by omega
  have hmo2 : t.month % 10 < 10 := Nat.mod_lt _ (by norm_num)
  have hd1 : t.day / 10 < 10 := by omega
  have hd2 : t.day % 10 < 10 := Nat.mod_lt _ (by norm_num)
  have hh1 : t.hour / 10 < 10 := by omega
  have hh2 : t.hour % 10 < 10 := Nat.mod_lt _ (by norm_num)
  have hmi1 : t.minute / 10 < 10 := by omega
  have hmi2 : t.minute % 10 < 10 := Nat.mod_lt _ (by norm_num)
  have hs1 : t.second / 10 < 10 := by omega
  have hs2 : t.second % 10 < 10 := Nat.mod_lt _ (by norm_num)
  simp [isoCore, pad4, pad2, replaceZ,
    digitChar_ne_Z hy1, digitChar_ne_Z hy2, digitChar_ne_Z hy3, digitChar_ne_Z hy4,
    digitChar_ne_Z hmo1, digitChar_ne_Z hmo2, digitChar_ne_Z hd1, digitChar_ne_Z hd2,
    digitChar_ne_Z hh1, digitChar_ne_Z hh2, digitChar_ne_Z hmi1, digitChar_ne_Z hmi2,
    digitChar_ne_Z hs1, digitChar_ne_Z hs2]

/-- Helper: `splitAtSign` on a `HH:MM:SS+...` time string. -/
theorem splitAtSign_hhmmss {c1 c2 c4 c5 c7 c8 : Char} {r : List Char}
    (h1 : ¬(c1 = '+' ∨ c1 = '-')) (h2 : ¬(c2 = '+' ∨ c2 = '-'))
    (h4 : ¬(c4 = '+' ∨ c4 = '-')) (h5 : ¬(c5 = '+' ∨ c5 = '-'))
    (h7 : ¬(c7 = '+' ∨ c7 = '-')) (h8 : ¬(c8 = '+' ∨ c8 = '-')) :
    splitAtSign (c1 :: c2 :: ':' :: c4 :: c5 :: ':' :: c7 :: c8 :: '+' :: r)
      = ([c1, c2, ':', c4, c5, ':', c7, c8], some ('+', r)) := by
  rw [splitAtSign_cons_nonsign h1, splitAtSign_cons_nonsign h2,
    splitAtSign_cons_nonsign (by decide), splitAtSign_cons_nonsign h4,
    splitAtSign_cons_nonsign h5, splitAtSign_cons_nonsign (by decide),
    splitAtSign_cons_nonsign h7, splitAtSign_cons_nonsign h8,
    splitAtSign_cons_plus]

/-- Helper: `parseHMSF` inverts the padded `HH:MM:SS` rendering. -/
theorem parseHMSF_hhmmss {h mi s : ℕ} (hh : h < 100) (hmi : mi < 100) (hs : s < 100) :
    parseHMSF [digitChar (h / 10), digitChar (h % 10), ':',
        digitChar (mi / 10), digitChar (mi % 10), ':',
        digitChar (s / 10), digitChar (s % 10)]
      = some (h, mi, s, 0) := by
  simp [parseHMSF, parse2_pad2 hh, parse2_pad2 hmi, parse2_pad2 hs]

/-- Helper: parsing the canonical wire timestamp
`YYYY-MM-DDTHH:MM:SS+00:00` recovers the components, with microsecond 0
and the UTC offset attached. -/
theorem fromisoformat_wire {t : PyDatetime}
    (hvd : validDate t.year t.month t.day = true)
    (hvt : validTime t.hour t.minute t.second 0 = true) :
    fromisoformat (isoCore t ++ '+' :: '0' :: '0' :: ':' :: '0' :: '0' :: []) =
      some ⟨t.year, t.month, t.day, t.hour, t.minute, t.second, 0, some 0⟩ := by
  have hvd' := hvd
  have hvt' := hvt
  simp only [validDate, Bool.and_eq_true, decide_eq_true_eq] at hvd'
  simp only [validTime, Bool.and_eq_true, decide_eq_true_eq] at hvt'
  have hdm := daysInMonth_le_31 t.year t.month
  have hy : t.year < 10000 := by omega
  have hmo : t.month < 100 := by omega
  have hd : t.day < 100 := by omega
  have hh : t.hour < 100 := by omega
  have hmi : t.minute < 100 := by omega
  have hs : t.second < 100 := by omega
  have hh1 : t.hour / 10 < 10 := by omega
  have hh2 : t.hour % 10 < 10 := Nat.mod_lt _ (by norm_num)
  have hmi1 : t.minute / 10 < 10 := by omega
  have hmi2 : t.minute % 10 < 10 := Nat.mod_lt _ (by norm_num)
  have hs1 : t.second / 10 < 10 := by omega
  have hs2 : t.second % 10 < 10 := Nat.mod_lt _ (by norm_num)
  have htz : parseTzOffset '+' ['0', '0', ':', '0', '0'] = some 0 := rfl
  simp only [isoCore, pad4, pad2, List.cons_append, List.nil_append, List.append_assoc]
  simp [fromisoformat, parse4_pad4 hy, parse2_pad2 hmo, parse2_pad2 hd, hvd,
    splitAtSign_hhmmss (digitChar_not_sign hh1) (digitChar_not_sign hh2)
      (digitChar_not_sign hmi1) (digitChar_not_sign hmi2)
      (digitChar_not_sign hs1) (digitChar_not_sign hs2),
    parseHMSF_hhmmss hh hmi hs, hvt, htz]

/-- Helper: decoding a canonical wire timestamp string
`YYYY-MM-DDTHH:MM:SSZ` through `replace("Z", "+00:00")` and
`fromisoformat`. -/
theorem parseDtField_wire {t : PyDatetime}
    (hvd : validDate t.year t.month t.day = true)
    (hvt : validTime t.hour t.minute t.second 0 = true) :
    parseDtField (.jstr (isoCore t ++ ['Z'])) =
      some (.jdt ⟨t.year, t.month, t.day, t.hour, t.minute, t.second, 0, some 0⟩) := by
  have hvd' := hvd
  have hvt' := hvt
  simp only [validDate, Bool.and_eq_true, decide_eq_true_eq] at hvd'
  simp only [validTime, Bool.and_eq_true, decide_eq_true_eq] at hvt'
  have hdm := daysInMonth_le_31 t.year t.month
  have hy : t.year < 10000 := by omega
  have hmo : t.month < 100 := by omega
  have hd : t.day < 100 := by omega
  have hh : t.hour < 100 := by omega
  have hmi : t.minute < 100 := by omega
  have hs : t.second < 100 := by omega
  simp only [parseDtField, replaceZ_append, replaceZ_isoCore hy hmo hd hh hmi hs]
  rw [show replaceZ ['Z'] = '+' :: '0' :: '0' :: ':' :: '0' :: '0' :: [] from rfl]
  rw [fromisoformat_wire hvd hvt]
  rfl

/-- Helper: re-encoding a whole-second UTC datetime yields the canonical
wire string. -/
theorem toWireTimestamp_utc (t : PyDatetime) :
    toWireTimestamp
        (.jdt ⟨t.year, t.month, t.day, t.hour, t.minute, t.second, 0, some 0⟩)
      = some (.jstr (isoCore t ++ ['Z'])) := by
  simp only [toWireTimestamp, isoformat_take19]
  rfl

/-- Helper: `from_dict` succeeds on a dict holding all seven fields with
parseable timestamp values and no unknown keys. -/
theorem from_dict_complete (d : List (PyStr × JVal)) (rv lv tv cv ev uav udv c e : JVal)
    (hr : d.lookup "resource".toList = some rv)
    (hl : d.lookup "lock_id".toList = some lv)
    (ht : d.lookup "tenant_id".toList = some tv)
    (hc : d.lookup "created".toList = some cv)
    (he : d.lookup "expires".toList = some ev)
    (hua : d.lookup "user_agent".toList = some uav)
    (hud : d.lookup "user_data".toList = some udv)
    (hpc : parseDtField cv = some c)
    (hpe : parseDtField ev = some e)
    (hall : d.all (fun kv => requiredFields.contains kv.1) = true) :
    AcquiredRessource.from_dict d = .ok ⟨rv, lv, tv, c, e, uav, udv⟩ := by
  have hfm : firstMissing d = none := by
    rw [firstMissing, List.find?_eq_none]
    intro f hf
    simp only [requiredFields, List.mem_cons, List.not_mem_nil, or_false] at hf
    rcases hf with rfl | rfl | rfl | rfl | rfl | rfl | rfl
    · rw [hl] ; simp
    · rw [hr] ; simp
    · rw [ht] ; simp
    · rw [hc] ; simp
    · rw [he] ; simp
    · rw [hua] ; simp
    · rw [hud] ; simp
  unfold AcquiredRessource.from_dict
  rw [hfm, hr, hl, ht, hc, he, hua, hud]
  simp only []
  rw [hpc, hpe]
  simp only []
  rw [if_pos hall]

/-- C6: for every valid lock record — all seven fields present, the two
timestamps datetimes with in-range components and whole-second values
serialized — decoding the encoded record (`from_dict` after `to_dict`)
reproduces the original `resource`, `lock_id`, `tenant_id`, `user_agent`,
`user_data`, and the timestamps truncated to second precision (returned
as UTC-aware datetimes); and (second conjunct) re-encoding a decoded
canonical wire timestamp `YYYY-MM-DDTHH:MM:SSZ` — no fractional seconds —
reproduces the wire timestamp string byte-for-byte. -/
theorem decode_encode_roundtrip (r : AcquiredRessource) (c e : PyDatetime)
    (hc : r.created = .jdt c) (he : r.expires = .jdt e)
    (hcd : validDate c.year c.month c.day = true)
    (hct : validTime c.hour c.minute c.second 0 = true)
    (hed : validDate e.year e.month e.day = true)
    (het : validTime e.hour e.minute e.second 0 = true) :
    (∃ body, r.to_dict = some body
      ∧ AcquiredRessource.from_dict body =
          .ok ⟨r.resource, r.lock_id, r.tenant_id,
               .jdt ⟨c.year, c.month, c.day, c.hour, c.minute, c.second, 0, some 0⟩,
               .jdt ⟨e.year, e.month, e.day, e.hour, e.minute, e.second, 0, some 0⟩,
               r.user_agent, r.user_data⟩)
    ∧ (∀ t : PyDatetime, validDate t.year t.month t.day = true →
        validTime t.hour t.minute t.second 0 = true →
        parseDtField (.jstr (isoCore t ++ ['Z'])) =
            some (.jdt ⟨t.year, t.month, t.day, t.hour, t.minute, t.second, 0, some 0⟩)
          ∧ toWireTimestamp
              (.jdt ⟨t.year, t.month, t.day, t.hour, t.minute, t.second, 0, some 0⟩)
            = some (.jstr (isoCore t ++ ['Z']))) := by
  constructor
  · refine ⟨[("resource".toList, r.resource), ("lock_id".toList, r.lock_id),
      ("tenant_id".toList, r.tenant_id),
      ("created".toList, .jstr (isoCore c ++ ['Z'])),
      ("expires".toList, .jstr (isoCore e ++ ['Z'])),
      ("user_agent".toList, r.user_agent), ("user_data".toList, r.user_data)], ?_, ?_⟩
    · rw [AcquiredRessource.to_dict, hc, he]
      simp only [toWireTimestamp, isoformat_take19, Option.bind_some, Option.map_some]
      rfl
    · exact from_dict_complete _ r.resource r.lock_id r.tenant_id
        (.jstr (isoCore c ++ ['Z'])) (.jstr (isoCore e ++ ['Z']))
        r.user_agent r.user_data _ _ rfl rfl rfl rfl rfl rfl rfl
        (parseDtField_wire hcd hct) (parseDtField_wire hed het) rfl
  · intro t hvd hvt
    exact ⟨parseDtField_wire hvd hvt, toWireTimestamp_utc t⟩

/-- Witness for C6 at a concrete input: the sample record encodes to the
full seven-field wire body and decodes back to itself with UTC-aware
whole-second timestamps. -/
theorem decode_encode_roundtrip_witness :
    AcquiredRessource.to_dict sampleRecord = some bodyAllFields
    ∧ AcquiredRessource.from_dict bodyAllFields
        = .ok ⟨.jstr "bar".toList, .jstr "1234".toList, .jstr "tenant".toList,
               .jdt ⟨2024, 1, 2, 3, 4, 5, 0, some 0⟩,
               .jdt ⟨2024, 1, 2, 4, 4, 5, 0, some 0⟩,
               .jstr "foo/1.0".toList, .jnull⟩ := by
  obtain ⟨body, h1, h2⟩ := (decode_encode_roundtrip sampleRecord
    ⟨2024, 1, 2, 3, 4, 5, 0, none⟩ ⟨2024, 1, 2, 4, 4, 5, 0, none⟩
    rfl rfl (by decide) (by decide) (by decide) (by decide)).1
  have hb : AcquiredRessource.to_dict sampleRecord = some bodyAllFields := by decide
  have hbody : body = bodyAllFields := by
    rw [h1] at hb
    exact Option.some.inj hb
  rw [hbody] at h2
  exact ⟨hb, h2⟩

/-- C7 counterexample: a wire body holding exactly the five fields the
spec lists as required — omitting only the optional `user_agent` and
`user_data` — does not decode successfully: `from_dict` raises the
missing-field decode error for `user_agent`. -/
theorem decode_without_optional_fields_fails :
    AcquiredRessource.from_dict bodyWithoutOptionals
      = .error (.missingField "user_agent".toList) := rfl

/-- C7 (amended): decoding fails with the missing-field decode error
exactly when one of the seven checked fields — `user_agent` and
`user_data` included, each field individually — is absent from the wire
body; a body holding all seven fields (with parseable timestamp values
and no unknown keys) decodes successfully. -/
theorem from_dict_missing_field_iff :
    (∀ d : List (PyStr × JVal),
      (∃ f, f ∈ requiredFields ∧ (d.lookup f).isNone = true)
        ↔ ∃ g, AcquiredRessource.from_dict d = .error (.missingField g))
    ∧ (∀ (d : List (PyStr × JVal)) (rv lv tv cv ev uav udv c e : JVal),
        d.lookup "resource".toList = some rv →
        d.lookup "lock_id".toList = some lv →
        d.lookup "tenant_id".toList = some tv →
        d.lookup "created".toList = some cv →
        d.lookup "expires".toList = some ev →
        d.lookup "user_agent".toList = some uav →
        d.lookup "user_data".toList = some udv →
        parseDtField cv = some c → parseDtField ev = some e →
        d.all (fun kv => requiredFields.contains kv.1) = true →
        AcquiredRessource.from_dict d = .ok ⟨rv, lv, tv, c, e, uav, udv⟩) := by
  constructor
  · intro d
    constructor
    · rintro ⟨f, hf, hnone⟩
      have hsome : (firstMissing d).isSome = true := by
        rw [firstMissing, List.find?_isSome]
        exact ⟨f, hf, hnone⟩
      obtain ⟨g, hg⟩ := Option.isSome_iff_exists.mp hsome
      refine ⟨g, ?_⟩
      unfold AcquiredRessource.from_dict
      rw [hg]
    · rintro ⟨g, hg⟩
      by_contra hno
      push_neg at hno
      have hfm : firstMissing d = none := by
        rw [firstMissing, List.find?_eq_none]
        intro f hf
        exact hno f hf
      have hlookups : ∀ f ∈ requiredFields, ∃ v, d.lookup f = some v := by
        intro f hf
        have hne := hno f hf
        rcases hv : d.lookup f with _ | v
        · rw [hv] at hne ; simp at hne
        · exact ⟨v, rfl⟩
      obtain ⟨rv, hr⟩ := hlookups "resource".toList (by decide)
      obtain ⟨lv, hl⟩ := hlookups "lock_id".toList (by decide)
      obtain ⟨tv, ht2⟩ := hlookups "tenant_id".toList (by decide)
      obtain ⟨cv, hcv⟩ := hlookups "created".toList (by decide)
      obtain ⟨ev, hev⟩ := hlookups "expires".toList (by decide)
      obtain ⟨uav, hua⟩ := hlookups "user_agent".toList (by decide)
      obtain ⟨udv, hud⟩ := hlookups "user_data".toList (by decide)
      unfold AcquiredRessource.from_dict at hg
      rw [hfm, hr, hl, ht2, hcv, hev, hua, hud] at hg
      simp only [] at hg
      cases hpc : parseDtField cv with
      | none =>
        rw [hpc] at hg
        cases hpe : parseDtField ev with
        | none =>
          rw [hpe] at hg ; simp only [] at hg
          exact DecodeErr.noConfusion (Except.error.inj hg)
        | some e =>
          rw [hpe] at hg ; simp only [] at hg
          exact DecodeErr.noConfusion (Except.error.inj hg)
      | some c =>
        rw [hpc] at hg
        cases hpe : parseDtField ev with
        | none =>
          rw [hpe] at hg ; simp only [] at hg
          exact DecodeErr.noConfusion (Except.error.inj hg)
        | some e =>
          rw [hpe] at hg ; simp only [] at hg
          cases hall : d.all (fun kv => requiredFields.contains kv.1) with
          | true =>
            rw [if_pos hall] at hg
            exact Except.noConfusion hg
          | false =>
            rw [if_neg (fun hcontra => Bool.false_ne_true (hall.symm.trans hcontra))] at hg
            exact DecodeErr.noConfusion (Except.error.inj hg)
  · intro d rv lv tv cv ev uav udv c e hr hl ht2 hcv hev hua hud hpc hpe hall
    exact from_dict_complete d rv lv tv cv ev uav udv c e
      hr hl ht2 hcv hev hua hud hpc hpe hall

/-- Witness for the amended C7 at concrete inputs: the five-field body
yields a missing-field decode error, and the seven-field body decodes. -/
theorem from_dict_missing_field_iff_witness :
    (∃ g, AcquiredRessource.from_dict bodyWithoutOptionals = .error (.missingField g))
    ∧ AcquiredRessource.from_dict bodyAllFields
        = .ok ⟨.jstr "bar".toList, .jstr "1234".toList, .jstr "tenant".toList,
               .jdt ⟨2024, 1, 2, 3, 4, 5, 0, some 0⟩,
               .jdt ⟨2024, 1, 2, 4, 4, 5, 0, some 0⟩,
               .jstr "foo/1.0".toList, .jnull⟩ := by
  constructor
  · exact (from_dict_missing_field_iff.1 bodyWithoutOptionals).mp
      ⟨"user_agent".toList, by decide, by decide⟩
  · exact from_dict_missing_field_iff.2 bodyAllFields
      (.jstr "bar".toList) (.jstr "1234".toList) (.jstr "tenant".toList)
      (.jstr "2024-01-02T03:04:05Z".toList) (.jstr "2024-01-02T04:04:05Z".toList)
      (.jstr "foo/1.0".toList) .jnull
      (.jdt ⟨2024, 1, 2, 3, 4, 5, 0, some 0⟩) (.jdt ⟨2024, 1, 2, 4, 4, 5, 0, some 0⟩)
      rfl rfl rfl rfl rfl rfl rfl (by decide) (by decide) rfl

end DistributedLock
